import Mathlib

/-!
Shallow embedding of the fe2o3-amqp protocol engine (sessions, links,
credit flow control and delivery settlement) together with theorems
checking the natural-language specification against the code.

Machine integers (`u32` / AMQP `SequenceNo`) are modelled as `Nat` with
explicit wrap-around modulo `2^32` at the operations where the Rust code
performs (release-mode, wrapping) `u32` arithmetic.  `BTreeMap` values
are modelled as association lists with unique keys; `Slab` is modelled
as a list of optional slots whose vacant key is the least free index.
-/

namespace Fe2o3

/-- Modulus of 32-bit sequence-number arithmetic. -/
def u32Mod : Nat := 4294967296

/-- Wrapping 32-bit addition, as Rust release-mode `u32` addition. -/
def u32add (a b : Nat) : Nat := (a + b) % u32Mod

/-- Wrapping 32-bit subtraction, as Rust release-mode `u32` subtraction. -/
def u32sub (a b : Nat) : Nat := (a % u32Mod + u32Mod - b % u32Mod) % u32Mod

/-- Opaque AMQP `Fields` map; its content is never inspected by the code
under verification, so it is modelled by an arbitrary numeric identity. -/
abbrev Fields := Nat

/-- The 4-byte delivery tag used internally (`[u8; 4]`), by identity only. -/
abbrev DeliveryTag := Nat

/-- A link handle (32-bit identifier scoped to a session). -/
abbrev Handle := Nat

/-- Association-list lookup, mirroring `BTreeMap::get` on a map with
unique keys. -/
def alistLookup {κ β : Type} [DecidableEq κ] : List (κ × β) → κ → Option β
  | [], _ => none
  | (k, v) :: rest, key => if k = key then some v else alistLookup rest key

/-- Association-list removal, mirroring `BTreeMap::remove` on a map with
unique keys. -/
def alistRemove {κ β : Type} [DecidableEq κ] : List (κ × β) → κ → List (κ × β)
  | [], _ => []
  | (k, v) :: rest, key => if k = key then rest else (k, v) :: alistRemove rest key

/-- Association-list insertion, mirroring `BTreeMap::insert` (replaces the
value when the key is present). -/
def alistInsert {κ β : Type} [DecidableEq κ] : List (κ × β) → κ → β → List (κ × β)
  | [], k, v => [(k, v)]
  | (k', v') :: rest, k, v =>
      if k' = k then (k, v) :: rest else (k', v') :: alistInsert rest k v

/-- In-place update of the value at a key, mirroring `BTreeMap::get_mut`
followed by a write through the reference. -/
def alistUpdate {κ β : Type} [DecidableEq κ] (f : β → β) :
    List (κ × β) → κ → List (κ × β)
  | [], _ => []
  | (k, v) :: rest, key =>
      if k = key then (k, f v) :: rest else (k, v) :: alistUpdate f rest key

/-- Link flow state carried in a `Flow` performative
(`endpoint::LinkFlow`); the fields are exactly those read and written in
`src/fe2o3-amqp/src/link/mod.rs`. -/
structure LinkFlow where
  handle : Handle
  delivery_count : Option Nat
  link_credit : Option Nat
  available : Option Nat
  drain : Bool
  echo : Bool
  properties : Option Fields
deriving DecidableEq, Repr

/-- The shared mutable link flow state (`LinkFlowStateInner` in
`src/fe2o3-amqp/src/link/mod.rs`; the `avaiable` spelling is the
source's). -/
structure LinkFlowStateInner where
  initial_delivery_count : Nat
  delivery_count : Nat
  link_credit : Nat
  avaiable : Nat
  drain : Bool
  properties : Option Fields
deriving DecidableEq, Repr

/-- Embedding of `LinkFlowStateInner::as_link_flow`. -/
def LinkFlowStateInner.as_link_flow (s : LinkFlowStateInner) (output_handle : Handle)
    (echo : Bool) : LinkFlow :=
  { handle := output_handle
    delivery_count := some s.delivery_count
    link_credit := some s.link_credit
    available := some s.avaiable
    drain := s.drain
    echo := echo
    properties := s.properties }

/-- Embedding of the `LinkFlowState::Sender` arm of
`LinkFlowState::on_incoming_flow`: substitute `initial_delivery_count`
for an absent `delivery_count`, recompute `link_credit` by the wrapping
formula when the flow carries one, copy `drain` from the peer, and
answer an echo request with the local state (echo = false). -/
def on_incoming_flow_sender (state : LinkFlowStateInner) (flow : LinkFlow)
    (output_handle : Handle) : LinkFlowStateInner × Option LinkFlow :=
  let delivery_count_rcv := flow.delivery_count.getD state.initial_delivery_count
  let state :=
    match flow.link_credit with
    | some link_credit_rcv =>
        { state with
            link_credit := u32sub (u32add delivery_count_rcv link_credit_rcv)
              state.delivery_count }
    | none => state
  let state := { state with drain := flow.drain }
  (state, if flow.echo then some (state.as_link_flow output_handle false) else none)

/-- Embedding of `consume_link_credit` in `src/fe2o3-amqp/src/link/mod.rs`:
fails (leaving the state untouched) when `link_credit < count`, otherwise
performs `delivery_count += count` and `link_credit -= count` in one step
under the write lock. -/
def consume_link_credit (state : LinkFlowStateInner) (count : Nat) :
    Option LinkFlowStateInner :=
  if state.link_credit < count then none
  else some { state with
                delivery_count := u32add state.delivery_count count
                link_credit := state.link_credit - count }

/-- Embedding of the credit-consuming loop in
`Consume for Consumer<Arc<LinkFlowState>>`: each element of `states` is
the flow state observed under the write lock at one wake-up of the
consumer; the loop re-checks `consume_link_credit` at each wake-up and
returns the updated state at the first success.  An exhausted list means
the consumer is still blocked. -/
def consumeLoop (count : Nat) : List LinkFlowStateInner → Option LinkFlowStateInner
  | [] => none
  | s :: rest =>
      match consume_link_credit s count with
      | some s' => some s'
      | none => consumeLoop count rest

/-- C2: after an incoming Flow that carries a `link_credit`, the sender's
local `link_credit` equals `flow.delivery_count + flow.link_credit −
local.delivery_count` in 32-bit sequence-number arithmetic, with
`initial_delivery_count` substituted for an absent `flow.delivery_count`;
and the local `drain` flag equals the flow's `drain` flag. -/
theorem sender_link_credit_formula (s : LinkFlowStateInner) (flow : LinkFlow)
    (h : Handle) (lc : Nat) (hlc : flow.link_credit = some lc)
    (hdc : s.delivery_count < u32Mod) :
    (on_incoming_flow_sender s flow h).1.link_credit
        = (flow.delivery_count.getD s.initial_delivery_count + lc
            + (u32Mod - s.delivery_count)) % u32Mod
    ∧ (on_incoming_flow_sender s flow h).1.drain = flow.drain := by
  unfold on_incoming_flow_sender
  rw [hlc]
  refine ⟨?_, rfl⟩
  show u32sub (u32add _ lc) s.delivery_count = _
  simp only [u32sub, u32add, u32Mod] at *
  omega

/-- Witness for C2 at a concrete state and flow. -/
theorem sender_link_credit_formula_witness :
    (on_incoming_flow_sender
        ⟨0, 2, 9, 0, false, none⟩
        ⟨0, some 10, some 7, none, true, false, none⟩ 0).1.link_credit
        = ((some 10).getD 0 + 7 + (u32Mod - 2)) % u32Mod
    ∧ (on_incoming_flow_sender
        ⟨0, 2, 9, 0, false, none⟩
        ⟨0, some 10, some 7, none, true, false, none⟩ 0).1.drain = true :=
  sender_link_credit_formula ⟨0, 2, 9, 0, false, none⟩
    ⟨0, some 10, some 7, none, true, false, none⟩ 0 7 rfl (by decide)

/-- C3: the credit-consuming step of the send path succeeds only at a
wake-up where `link_credit ≥ count` (so no Transfer is emitted for a new
delivery while `link_credit = 0`); at that point it atomically performs
`delivery_count += count` and `link_credit -= count`; and every earlier
wake-up re-checked the condition and found insufficient credit. -/
theorem consume_credit_no_credit_no_send (count : Nat)
    (states : List LinkFlowStateInner) (s' : LinkFlowStateInner)
    (h : consumeLoop count states = some s') :
    ∃ i : Nat, ∃ hi : i < states.length,
      count ≤ (states.get ⟨i, hi⟩).link_credit
      ∧ s' = { states.get ⟨i, hi⟩ with
                 delivery_count := u32add (states.get ⟨i, hi⟩).delivery_count count
                 link_credit := (states.get ⟨i, hi⟩).link_credit - count }
      ∧ ∀ s ∈ states.take i, s.link_credit < count := by
  induction states with
  | nil => simp [consumeLoop] at h
  | cons head tail ih =>
      by_cases hlt : head.link_credit < count
      · have h' : consumeLoop count tail = some s' := by
          simpa [consumeLoop, consume_link_credit, hlt] using h
        obtain ⟨i, hi, hcred, heq, hbefore⟩ := ih h'
        refine ⟨i + 1, Nat.succ_lt_succ hi, by simpa using hcred,
          by simpa using heq, ?_⟩
        intro s hs
        rw [List.take_succ_cons, List.mem_cons] at hs
        rcases hs with hs | hs
        · exact hs ▸ hlt
        · exact hbefore s hs
      · have heq : s' = { head with
            delivery_count := u32add head.delivery_count count
            link_credit := head.link_credit - count } := by
          have h'' := h
          simp [consumeLoop, consume_link_credit, hlt] at h''
          exact h''.symm
        exact ⟨0, Nat.succ_pos _, by simpa using Nat.le_of_not_lt hlt,
          by simpa using heq, by simp⟩

/-- Witness for C3: with count 1, the consumer skips a zero-credit state
and succeeds at the next wake-up, where the producer has granted credit. -/
theorem consume_credit_no_credit_no_send_witness :
    ∃ i : Nat,
      ∃ hi : i < ([⟨0, 0, 0, 0, false, none⟩, ⟨0, 0, 2, 0, false, none⟩]
          : List LinkFlowStateInner).length,
      1 ≤ (([⟨0, 0, 0, 0, false, none⟩, ⟨0, 0, 2, 0, false, none⟩]
          : List LinkFlowStateInner).get ⟨i, hi⟩).link_credit
      ∧ (⟨0, 1, 1, 0, false, none⟩ : LinkFlowStateInner)
          = { ([⟨0, 0, 0, 0, false, none⟩, ⟨0, 0, 2, 0, false, none⟩]
                : List LinkFlowStateInner).get ⟨i, hi⟩ with
                delivery_count := u32add (([⟨0, 0, 0, 0, false, none⟩,
                  ⟨0, 0, 2, 0, false, none⟩]
                    : List LinkFlowStateInner).get ⟨i, hi⟩).delivery_count 1
                link_credit := (([⟨0, 0, 0, 0, false, none⟩,
                  ⟨0, 0, 2, 0, false, none⟩]
                    : List LinkFlowStateInner).get ⟨i, hi⟩).link_credit - 1 }
      ∧ ∀ s ∈ ([⟨0, 0, 0, 0, false, none⟩, ⟨0, 0, 2, 0, false, none⟩]
            : List LinkFlowStateInner).take i, s.link_credit < 1 :=
  consume_credit_no_credit_no_send 1
    [⟨0, 0, 0, 0, false, none⟩, ⟨0, 0, 2, 0, false, none⟩]
    ⟨0, 1, 1, 0, false, none⟩ rfl

/-- Receiver settle mode (First / Second); the `Mixed` wire value is not
used by the disposition paths under verification. -/
inductive ReceiverSettleMode where
  | first
  | second
deriving DecidableEq, Repr

/-- Delivery state (`messaging::DeliveryState`).  The content of each
variant is never inspected beyond identity by the code under
verification, so the payloads are numeric identities. -/
inductive DeliveryState where
  | accepted
  | rejected (error : Option Nat)
  | released
  | modified (m : Nat)
  | received (r : Nat)
  | declared (d : Nat)
  | transactionalState (t : Nat)
deriving DecidableEq, Repr

/-- An entry of the sender's unsettled map (`UnsettledMessage` in
`src/fe2o3-amqp/src/link/delivery.rs`): a payload, the current delivery
state, and the identity of the one-shot sender used to deliver the
terminal outcome. -/
structure UnsettledMessage where
  payload : Nat
  state : Option DeliveryState
  sender : Nat
deriving DecidableEq, Repr

/-- The sender's unsettled map, keyed by the 4-byte delivery tag. -/
abbrev UnsettledMap := List (DeliveryTag × UnsettledMessage)

/-- Outcome of one call to `LinkHandle::on_incoming_disposition`: the
updated unsettled map, the one-shot signals fired (pairs of one-shot
sender identity and the delivery state sent through it), and the
returned echo flag. -/
structure LinkDispositionResult where
  unsettled : UnsettledMap
  signals : List (Nat × Option DeliveryState)
  echo : Bool
deriving DecidableEq, Repr

/-- Embedding of the `Role::Receiver` arm of
`LinkHandle::on_incoming_disposition` in `src/fe2o3-amqp/src/link/mod.rs`
(the `Role::Sender` arm of the source is an unimplemented `todo!()`).
If settled: remove the entry keyed by the tag, signal its one-shot with
the carried state, and request an echo exactly when the receiver settle
mode is Second.  If unsettled: mutate the stored state in place (when the
disposition carries one) and keep the entry. -/
def link_on_incoming_disposition (unsettled : UnsettledMap)
    (receiver_settle_mode : ReceiverSettleMode) (is_settled : Bool)
    (state : Option DeliveryState) (delivery_tag : DeliveryTag) :
    LinkDispositionResult :=
  if is_settled then
    let signals :=
      match alistLookup unsettled delivery_tag with
      | some msg => [(msg.sender, state)]
      | none => []
    { unsettled := alistRemove unsettled delivery_tag
      signals := signals
      echo :=
        match receiver_settle_mode with
        | .first => false
        | .second => true }
  else
    let unsettled :=
      match state with
      | some st => alistUpdate (fun msg => { msg with state := some st })
          unsettled delivery_tag
      | none => unsettled
    { unsettled := unsettled, signals := [], echo := false }

/-- A link relay as stored in the session's `local_links` slab: its share
of the unsettled map and the recorded receiver settle mode. -/
structure LinkModel where
  unsettled : UnsettledMap
  receiver_settle_mode : ReceiverSettleMode
deriving DecidableEq, Repr

/-- Slab read (`Slab::get`): `none` when the slot is free or out of range. -/
def slabGet {α : Type} (slab : List (Option α)) (i : Nat) : Option α :=
  (slab.get? i).getD none

/-- Overwrite an occupied slab slot (the effect of mutating through
`Slab::get_mut`). -/
def slabSet {α : Type} (slab : List (Option α)) (i : Nat) (a : α) :
    List (Option α) :=
  slab.set i (some a)

/-- One dispatch of an incoming disposition from the session to a link. -/
structure DispEvent where
  delivery_id : Nat
  handle : Handle
  tag : DeliveryTag
  settled : Bool
  state : Option DeliveryState
deriving DecidableEq, Repr

/-- A batched settled echo disposition emitted by the session while
walking an unsettled disposition's range. -/
structure EchoDisp where
  first : Nat
  last : Option Nat
deriving DecidableEq, Repr

/-- The session state touched by `Session::on_incoming_disposition`:
the delivery-id ledger and the link relays. -/
structure SessionDisp where
  delivery_tag_by_id : List (Nat × Handle × DeliveryTag)
  local_links : List (Option LinkModel)
deriving DecidableEq, Repr

/-- One iteration of the settled branch of
`Session::on_incoming_disposition`: `delivery_tag_by_id.remove` (the
entry is removed even when the link slot is gone), then dispatch to the
owning link when it is present. -/
def dispositionSettledStep (state : Option DeliveryState)
    (acc : SessionDisp × List DispEvent) (delivery_id : Nat) :
    SessionDisp × List DispEvent :=
  let (s, events) := acc
  match alistLookup s.delivery_tag_by_id delivery_id with
  | some (handle, delivery_tag) =>
      let ledger := alistRemove s.delivery_tag_by_id delivery_id
      match slabGet s.local_links handle with
      | some link =>
          let r := link_on_incoming_disposition link.unsettled
            link.receiver_settle_mode true state delivery_tag
          (⟨ledger, slabSet s.local_links handle { link with unsettled := r.unsettled }⟩,
           events ++ [⟨delivery_id, handle, delivery_tag, true, state⟩])
      | none => (⟨ledger, s.local_links⟩, events)
  | none => acc

/-- Accumulator of the unsettled branch of
`Session::on_incoming_disposition`, carrying the echo-batching locals
`first_echo`, `last_echo` and `prev`. -/
structure UnsettledAcc where
  session : SessionDisp
  events : List DispEvent
  echoes : List EchoDisp
  first_echo : Nat
  last_echo : Nat
  prev : Bool
deriving DecidableEq, Repr

/-- One iteration of the unsettled branch of
`Session::on_incoming_disposition`: look the entry up (without removing
it), dispatch, and run the echo-batching logic of the source. -/
def dispositionUnsettledStep (state : Option DeliveryState)
    (acc : UnsettledAcc) (delivery_id : Nat) : UnsettledAcc :=
  match alistLookup acc.session.delivery_tag_by_id delivery_id with
  | some (handle, delivery_tag) =>
      match slabGet acc.session.local_links handle with
      | some link =>
          let r := link_on_incoming_disposition link.unsettled
            link.receiver_settle_mode false state delivery_tag
          let acc := { acc with
            session := ⟨acc.session.delivery_tag_by_id,
              slabSet acc.session.local_links handle
                { link with unsettled := r.unsettled }⟩
            events := acc.events ++ [DispEvent.mk delivery_id handle delivery_tag false state] }
          let acc :=
            if r.echo then
              { acc with
                  first_echo := if acc.prev then acc.first_echo else delivery_id
                  last_echo := delivery_id }
            else if acc.prev then
              { acc with
                  echoes := acc.echoes ++
                    [EchoDisp.mk acc.first_echo
                      (if acc.last_echo ≠ acc.first_echo then some acc.last_echo
                       else none)] }
            else acc
          { acc with prev := r.echo }
      | none => acc
  | none => acc

/-- Embedding of `Session::on_incoming_disposition` for dispositions sent
by a receiver peer (`disposition.role = Receiver`; the sender-role link
arm of the source is an unimplemented `todo!()`).  `last` defaults to
`first` when absent.  The settled branch walks `first..=last` (inclusive)
removing ledger entries; the unsettled branch walks `first..last`
(exclusive, as in the source) keeping them.  Returns the updated session,
the dispatch events, and the echo dispositions emitted. -/
def session_on_incoming_disposition (s : SessionDisp) (settled : Bool)
    (state : Option DeliveryState) (first : Nat) (lastOpt : Option Nat) :
    SessionDisp × List DispEvent × List EchoDisp :=
  let last := lastOpt.getD first
  if settled then
    let (s', events) := (List.range' first (last + 1 - first)).foldl
      (dispositionSettledStep state) (s, [])
    (s', events, [])
  else
    let acc := (List.range' first (last - first)).foldl
      (dispositionUnsettledStep state)
      ⟨s, [], [], first, first, false⟩
    (acc.session, acc.events, acc.echoes)

/-- Looking a key up after an in-place update applies the update to the
looked-up value. -/
theorem alistLookup_update_self {κ β : Type} [DecidableEq κ] (f : β → β)
    (m : List (κ × β)) (k : κ) :
    alistLookup (alistUpdate f m k) k = (alistLookup m k).map f := by
  induction m with
  | nil => rfl
  | cons head tail ih =>
      obtain ⟨k', v'⟩ := head
      by_cases hk : k' = k
      · subst hk
        simp [alistUpdate, alistLookup]
      · simp [alistUpdate, alistLookup, hk, ih]

/-- C6: for a disposition from a receiver peer on a delivery-tag present
in the sender's UnsettledMap: if settled, the entry is removed, its
one-shot is signalled with the carried delivery state, and an echo is
requested exactly when the receiver settle mode is Second; if unsettled
and carrying a state, the stored state is mutated in place, the entry is
retained, and nothing is signalled. -/
theorem unsettled_map_disposition (m : UnsettledMap) (rsm : ReceiverSettleMode)
    (st : Option DeliveryState) (tag : DeliveryTag) (msg : UnsettledMessage)
    (hlook : alistLookup m tag = some msg) :
    ((link_on_incoming_disposition m rsm true st tag).unsettled = alistRemove m tag
      ∧ (link_on_incoming_disposition m rsm true st tag).signals = [(msg.sender, st)]
      ∧ ((link_on_incoming_disposition m rsm true st tag).echo = true
          ↔ rsm = ReceiverSettleMode.second))
    ∧ ∀ s : DeliveryState, st = some s →
        ((link_on_incoming_disposition m rsm false st tag).unsettled
            = alistUpdate (fun u => { u with state := some s }) m tag
          ∧ alistLookup (link_on_incoming_disposition m rsm false st tag).unsettled tag
            = some { msg with state := some s }
          ∧ (link_on_incoming_disposition m rsm false st tag).signals = []) := by
  constructor
  · unfold link_on_incoming_disposition
    rw [hlook]
    refine ⟨rfl, rfl, ?_⟩
    cases rsm <;> simp
  · intro s hs
    subst hs
    unfold link_on_incoming_disposition
    refine ⟨rfl, ?_, rfl⟩
    show alistLookup (alistUpdate _ m tag) tag = _
    rw [alistLookup_update_self, hlook]
    rfl

/-- Witness for C6 at a concrete unsettled map and disposition. -/
theorem unsettled_map_disposition_witness :
    ((link_on_incoming_disposition [(5, ⟨11, none, 3⟩)] ReceiverSettleMode.second
        true (some (DeliveryState.rejected (some 1))) 5).unsettled
        = alistRemove [(5, ⟨11, none, 3⟩)] 5
      ∧ (link_on_incoming_disposition [(5, ⟨11, none, 3⟩)] ReceiverSettleMode.second
        true (some (DeliveryState.rejected (some 1))) 5).signals
        = [(3, some (DeliveryState.rejected (some 1)))]
      ∧ ((link_on_incoming_disposition [(5, ⟨11, none, 3⟩)] ReceiverSettleMode.second
        true (some (DeliveryState.rejected (some 1))) 5).echo = true
          ↔ ReceiverSettleMode.second = ReceiverSettleMode.second))
    ∧ ∀ s : DeliveryState, some (DeliveryState.rejected (some 1)) = some s →
        ((link_on_incoming_disposition [(5, ⟨11, none, 3⟩)] ReceiverSettleMode.second
            false (some (DeliveryState.rejected (some 1))) 5).unsettled
            = alistUpdate (fun u => { u with state := some s }) [(5, ⟨11, none, 3⟩)] 5
          ∧ alistLookup (link_on_incoming_disposition [(5, ⟨11, none, 3⟩)]
              ReceiverSettleMode.second false
              (some (DeliveryState.rejected (some 1))) 5).unsettled 5
            = some { (⟨11, none, 3⟩ : UnsettledMessage) with state := some s }
          ∧ (link_on_incoming_disposition [(5, ⟨11, none, 3⟩)] ReceiverSettleMode.second
              false (some (DeliveryState.rejected (some 1))) 5).signals = []) :=
  unsettled_map_disposition [(5, ⟨11, none, 3⟩)] ReceiverSettleMode.second
    (some (DeliveryState.rejected (some 1))) 5 ⟨11, none, 3⟩ rfl

/-- C1: evidence of the range bug in `Session::on_incoming_disposition`.
With a ledger entry for delivery-id 5 and a live owning link, an
unsettled disposition covering exactly [5, 5] dispatches nothing and
leaves the ledger untouched, because the unsettled branch of the source
iterates the exclusive range `first..last` instead of the inclusive
`first..=last` used by the settled branch; a settled disposition over the
same range dispatches the delivery once, as the claim demands for both
cases. -/
theorem disposition_unsettled_branch_skips_range :
    session_on_incoming_disposition
        ⟨[(5, (0, 77))], [some ⟨[(77, ⟨9, none, 3⟩)], ReceiverSettleMode.second⟩]⟩
        false (some (DeliveryState.received 0)) 5 (some 5)
      = (⟨[(5, (0, 77))], [some ⟨[(77, ⟨9, none, 3⟩)], ReceiverSettleMode.second⟩]⟩,
         [], [])
    ∧ (session_on_incoming_disposition
        ⟨[(5, (0, 77))], [some ⟨[(77, ⟨9, none, 3⟩)], ReceiverSettleMode.second⟩]⟩
        true (some DeliveryState.accepted) 5 (some 5)).2.1
      = [⟨5, 0, 77, true, some DeliveryState.accepted⟩] :=
  ⟨rfl, rfl⟩

/-- Looking a key up right after inserting it yields the inserted value. -/
theorem alistLookup_insert_self {κ β : Type} [DecidableEq κ]
    (m : List (κ × β)) (k : κ) (v : β) :
    alistLookup (alistInsert m k v) k = some v := by
  induction m with
  | nil => simp [alistInsert, alistLookup]
  | cons head tail ih =>
      obtain ⟨k', v'⟩ := head
      by_cases hk : k' = k
      · subst hk
        simp [alistInsert, alistLookup]
      · simp [alistInsert, alistLookup, hk, ih]

/-- The fields of a Transfer performative read or written by
`Session::on_outgoing_transfer`; the remaining wire fields are carried
through untouched and are left out of the model. -/
structure TransferPerf where
  handle : Handle
  delivery_id : Option Nat
  delivery_tag : Option DeliveryTag
deriving DecidableEq, Repr

/-- The session state touched by `Session::on_outgoing_transfer`. -/
structure SessionXfer where
  next_outgoing_id : Nat
  remote_incoming_window : Nat
  delivery_tag_by_id : List (Nat × Handle × DeliveryTag)
deriving DecidableEq, Repr

/-- Embedding of `Session::on_outgoing_transfer`: when the transfer
carries a delivery tag, stamp `delivery_id := next_outgoing_id` and
record `(delivery_id -> (handle, tag))`; then `next_outgoing_id += 1` and
`remote_incoming_window -= 1` in wrapping 32-bit arithmetic. -/
def on_outgoing_transfer (s : SessionXfer) (transfer : TransferPerf) :
    SessionXfer × TransferPerf :=
  let (transfer, ledger) :=
    match transfer.delivery_tag with
    | some delivery_tag =>
        ({ transfer with delivery_id := some s.next_outgoing_id },
         alistInsert s.delivery_tag_by_id s.next_outgoing_id
           (transfer.handle, delivery_tag))
    | none => (transfer, s.delivery_tag_by_id)
  ({ next_outgoing_id := u32add s.next_outgoing_id 1
     remote_incoming_window := u32sub s.remote_incoming_window 1
     delivery_tag_by_id := ledger },
   transfer)

/-- C4: every outgoing Transfer advances `next_outgoing_id` by exactly
one and shrinks `remote_incoming_window` by exactly one (shown away from
the 32-bit wrap boundaries); and when the transfer carries a delivery
tag, its `delivery_id` is stamped with the old `next_outgoing_id` and the
ledger records `(delivery_id -> (handle, tag))`. -/
theorem outgoing_transfer_window_and_ledger (s : SessionXfer)
    (transfer : TransferPerf)
    (hno : s.next_outgoing_id + 1 < u32Mod)
    (hrw : 0 < s.remote_incoming_window)
    (hrw2 : s.remote_incoming_window < u32Mod) :
    (on_outgoing_transfer s transfer).1.next_outgoing_id = s.next_outgoing_id + 1
    ∧ (on_outgoing_transfer s transfer).1.remote_incoming_window
        = s.remote_incoming_window - 1
    ∧ (∀ tag : DeliveryTag, transfer.delivery_tag = some tag →
        ((on_outgoing_transfer s transfer).2.delivery_id = some s.next_outgoing_id
          ∧ alistLookup (on_outgoing_transfer s transfer).1.delivery_tag_by_id
              s.next_outgoing_id = some (transfer.handle, tag)))
    ∧ (transfer.delivery_tag = none →
        (on_outgoing_transfer s transfer).2 = transfer
        ∧ (on_outgoing_transfer s transfer).1.delivery_tag_by_id
            = s.delivery_tag_by_id) := by
  refine ⟨?_, ?_, ?_, ?_⟩
  · show u32add s.next_outgoing_id 1 = _
    simp only [u32add, u32Mod] at *
    omega
  · show u32sub s.remote_incoming_window 1 = _
    simp only [u32sub, u32Mod] at *
    omega
  · intro tag htag
    unfold on_outgoing_transfer
    rw [htag]
    exact ⟨rfl, alistLookup_insert_self _ _ _⟩
  · intro htag
    unfold on_outgoing_transfer
    rw [htag]
    exact ⟨rfl, rfl⟩

/-- Witness for C4 at a concrete session state and tagged transfer. -/
theorem outgoing_transfer_window_and_ledger_witness :
    (on_outgoing_transfer ⟨4, 10, []⟩ ⟨2, none, some 77⟩).1.next_outgoing_id = 4 + 1
    ∧ (on_outgoing_transfer ⟨4, 10, []⟩ ⟨2, none, some 77⟩).1.remote_incoming_window
        = 10 - 1
    ∧ (∀ tag : DeliveryTag, (some 77 : Option DeliveryTag) = some tag →
        ((on_outgoing_transfer ⟨4, 10, []⟩ ⟨2, none, some 77⟩).2.delivery_id = some 4
          ∧ alistLookup (on_outgoing_transfer ⟨4, 10, []⟩
              ⟨2, none, some 77⟩).1.delivery_tag_by_id 4 = some (2, tag)))
    ∧ ((some 77 : Option DeliveryTag) = none →
        (on_outgoing_transfer ⟨4, 10, []⟩ ⟨2, none, some 77⟩).2 = ⟨2, none, some 77⟩
        ∧ (on_outgoing_transfer ⟨4, 10, []⟩
            ⟨2, none, some 77⟩).1.delivery_tag_by_id = []) :=
  outgoing_transfer_window_and_ledger ⟨4, 10, []⟩ ⟨2, none, some 77⟩
    (by decide) (by decide) (by decide)

/-- The session-level fields of a Flow performative read by
`Session::on_incoming_flow` (the link-level portion is routed to the
addressed link relay and does not touch these session fields). -/
structure FlowPerf where
  next_incoming_id : Option Nat
  incoming_window : Nat
  next_outgoing_id : Nat
  outgoing_window : Nat
deriving DecidableEq, Repr

/-- The session window state touched by the session-level part of
`Session::on_incoming_flow`. -/
structure SessionFlow where
  initial_outgoing_id : Nat
  next_outgoing_id : Nat
  next_incoming_id : Nat
  remote_incoming_window : Nat
  remote_outgoing_window : Nat
deriving DecidableEq, Repr

/-- Embedding of the session flow-control part of
`Session::on_incoming_flow` (session/mod.rs lines 416-439): copy
`next_incoming_id` and `remote_outgoing_window` from the frame and
recompute `remote_incoming_window`, substituting `initial_outgoing_id`
when the frame omits `next_incoming_id`. -/
def session_on_incoming_flow (s : SessionFlow) (flow : FlowPerf) : SessionFlow :=
  let s := { s with
    next_incoming_id := flow.next_outgoing_id
    remote_outgoing_window := flow.outgoing_window }
  match flow.next_incoming_id with
  | some flow_next_incoming_id =>
      { s with
        remote_incoming_window :=
          u32sub (u32add flow_next_incoming_id flow.incoming_window)
            s.next_outgoing_id }
  | none =>
      { s with
        remote_incoming_window :=
          u32sub (u32add s.initial_outgoing_id flow.incoming_window)
            s.next_outgoing_id }

/-- C5: on an incoming Flow the session sets `next_incoming_id` from the
frame's `next_outgoing_id`, `remote_outgoing_window` from the frame's
`outgoing_window`, and recomputes `remote_incoming_window` as
`flow.next_incoming_id + flow.incoming_window − next_outgoing_id` in
32-bit sequence arithmetic, substituting `initial_outgoing_id` when the
frame omits `next_incoming_id`. -/
theorem session_flow_window_update (s : SessionFlow) (flow : FlowPerf)
    (hno : s.next_outgoing_id < u32Mod) :
    (session_on_incoming_flow s flow).next_incoming_id = flow.next_outgoing_id
    ∧ (session_on_incoming_flow s flow).remote_outgoing_window = flow.outgoing_window
    ∧ (session_on_incoming_flow s flow).remote_incoming_window
        = (flow.next_incoming_id.getD s.initial_outgoing_id + flow.incoming_window
            + (u32Mod - s.next_outgoing_id)) % u32Mod
    ∧ (session_on_incoming_flow s flow).next_outgoing_id = s.next_outgoing_id
    ∧ (session_on_incoming_flow s flow).initial_outgoing_id = s.initial_outgoing_id := by
  unfold session_on_incoming_flow
  cases hni : flow.next_incoming_id with
  | none =>
      refine ⟨rfl, rfl, ?_, rfl, rfl⟩
      show u32sub (u32add s.initial_outgoing_id flow.incoming_window)
        s.next_outgoing_id = _
      simp only [u32sub, u32add, u32Mod, Option.getD] at *
      omega
  | some fni =>
      refine ⟨rfl, rfl, ?_, rfl, rfl⟩
      show u32sub (u32add fni flow.incoming_window) s.next_outgoing_id = _
      simp only [u32sub, u32add, u32Mod, Option.getD] at *
      omega

/-- Witness for C5 at a concrete session state and flow frame. -/
theorem session_flow_window_update_witness :
    (session_on_incoming_flow ⟨0, 3, 0, 0, 0⟩ ⟨some 8, 50, 21, 60⟩).next_incoming_id = 21
    ∧ (session_on_incoming_flow ⟨0, 3, 0, 0, 0⟩
        ⟨some 8, 50, 21, 60⟩).remote_outgoing_window = 60
    ∧ (session_on_incoming_flow ⟨0, 3, 0, 0, 0⟩
        ⟨some 8, 50, 21, 60⟩).remote_incoming_window
        = ((some 8).getD 0 + 50 + (u32Mod - 3)) % u32Mod
    ∧ (session_on_incoming_flow ⟨0, 3, 0, 0, 0⟩
        ⟨some 8, 50, 21, 60⟩).next_outgoing_id = 3
    ∧ (session_on_incoming_flow ⟨0, 3, 0, 0, 0⟩
        ⟨some 8, 50, 21, 60⟩).initial_outgoing_id = 0 :=
  session_flow_window_update ⟨0, 3, 0, 0, 0⟩ ⟨some 8, 50, 21, 60⟩ (by decide)

/-- Session endpoint states (`SessionState` in fe2o3-amqp-types). -/
inductive SessionState where
  | unmapped
  | beginSent
  | beginReceived
  | mapped
  | endSent
  | endReceived
  | discarding
deriving DecidableEq, Repr

/-- Errors of `Session::allocate_link` (`AllocLinkError`). -/
inductive AllocLinkError where
  | illegalState
  | duplicatedLinkName
  | handleMaxReached
deriving DecidableEq, Repr

/-- The key handed out by `Slab::vacant_entry` for the next insertion:
the least free index (the slab's free list reuses freed slots; with the
dense allocation the session performs this is the least index not
occupied, or the length when the slab is full). -/
def slabVacantKey {α : Type} : List (Option α) → Nat
  | [] => 0
  | none :: _ => 0
  | some _ :: rest => slabVacantKey rest + 1

/-- Insertion at the vacant key (`VacantEntry::insert`). -/
def slabInsert {α : Type} (slab : List (Option α)) (a : α) : List (Option α) :=
  if slabVacantKey slab < slab.length then slab.set (slabVacantKey slab) (some a)
  else slab ++ [some a]

/-- The session state touched by `Session::allocate_link`. -/
structure SessionAlloc where
  local_state : SessionState
  handle_max : Nat
  local_links : List (Option LinkModel)
  link_by_name : List (String × Handle)
deriving DecidableEq, Repr

/-- Embedding of `Session::allocate_link`, rendered as state passing
for the `&mut self` receiver: reject with IllegalState unless Mapped,
with DuplicatedLinkName when the name is taken, with HandleMaxReached
when the vacant key exceeds `handle_max`; otherwise insert the relay at
the vacant key and record the name-to-handle mapping.  Error returns
leave the state exactly as received. -/
def allocate_link (s : SessionAlloc) (link_name : String)
    (link_handle : LinkModel) : SessionAlloc × Except AllocLinkError Handle :=
  match s.local_state with
  | SessionState.mapped =>
      if (alistLookup s.link_by_name link_name).isSome then
        (s, Except.error AllocLinkError.duplicatedLinkName)
      else
        let handle := slabVacantKey s.local_links
        if s.handle_max < handle then
          (s, Except.error AllocLinkError.handleMaxReached)
        else
          ({ s with
              local_links := slabInsert s.local_links link_handle
              link_by_name := alistInsert s.link_by_name link_name handle },
           Except.ok handle)
  | _ => (s, Except.error AllocLinkError.illegalState)

/-- C8: `allocate_link` rejects with IllegalState outside Mapped, with
DuplicatedLinkName on a taken name, with HandleMaxReached when the next
free slab index exceeds `handle_max`, and otherwise inserts the relay at
that index and records the name mapping; every error return leaves
`local_links` and `link_by_name` unchanged. -/
theorem allocate_link_spec (s : SessionAlloc) (link_name : String)
    (lh : LinkModel) :
    (s.local_state ≠ SessionState.mapped →
      allocate_link s link_name lh = (s, Except.error AllocLinkError.illegalState))
    ∧ (s.local_state = SessionState.mapped →
        (alistLookup s.link_by_name link_name).isSome →
        allocate_link s link_name lh
          = (s, Except.error AllocLinkError.duplicatedLinkName))
    ∧ (s.local_state = SessionState.mapped →
        alistLookup s.link_by_name link_name = none →
        s.handle_max < slabVacantKey s.local_links →
        allocate_link s link_name lh
          = (s, Except.error AllocLinkError.handleMaxReached))
    ∧ (s.local_state = SessionState.mapped →
        alistLookup s.link_by_name link_name = none →
        slabVacantKey s.local_links ≤ s.handle_max →
        allocate_link s link_name lh
          = ({ s with
                local_links := slabInsert s.local_links lh
                link_by_name := alistInsert s.link_by_name link_name
                  (slabVacantKey s.local_links) },
             Except.ok (slabVacantKey s.local_links)))
    ∧ (∀ e : AllocLinkError,
        (allocate_link s link_name lh).2 = Except.error e →
        (allocate_link s link_name lh).1 = s) := by
  refine ⟨?_, ?_, ?_, ?_, ?_⟩
  · intro hst
    unfold allocate_link
    cases hs : s.local_state
    all_goals simp_all
  · intro hst hdup
    unfold allocate_link
    rw [hst]
    simp [hdup]
  · intro hst hdup hmax
    unfold allocate_link
    rw [hst]
    simp [hdup, hmax, Nat.not_le_of_lt hmax]
  · intro hst hdup hmax
    unfold allocate_link
    rw [hst]
    simp [hdup, Nat.not_lt_of_le hmax]
  · intro e he
    unfold allocate_link at *
    by_cases hdup : (alistLookup s.link_by_name link_name).isSome
    · cases hs : s.local_state
      all_goals simp_all
    · by_cases hmax : s.handle_max < slabVacantKey s.local_links
      · cases hs : s.local_state
        all_goals simp_all
      · cases hs : s.local_state
        all_goals simp_all

/-- Witness for C8: a successful allocation in the Mapped state at the
first free slab index. -/
theorem allocate_link_spec_witness :
    allocate_link ⟨SessionState.mapped, 7, [], []⟩ "l1" ⟨[], ReceiverSettleMode.first⟩
      = (⟨SessionState.mapped, 7, [some ⟨[], ReceiverSettleMode.first⟩], [("l1", 0)]⟩,
         Except.ok 0) :=
  (allocate_link_spec ⟨SessionState.mapped, 7, [], []⟩ "l1"
    ⟨[], ReceiverSettleMode.first⟩).2.2.2.1 rfl rfl (by decide)

/-- The settlement handle returned by the send path
(`endpoint::Settlement` as matched in `DeliveryFut::poll`): pre-settled
deliveries carry only the tag, unsettled ones carry the one-shot
receiver, whose observed status at the poll is embedded in place of the
channel. -/
inductive Settlement where
  | settled (delivery_tag : DeliveryTag)
  | unsettled (delivery_tag : DeliveryTag)
      (outcome : Option (Except Unit (Option DeliveryState)))
deriving Repr

/-- Terminal outcome surfaced to the sending application
(`messaging::Outcome`). -/
inductive Outcome where
  | accepted
  | rejected (error : Option Nat)
  | released
  | modified (m : Nat)
  | declared (d : Nat)
deriving DecidableEq, Repr

/-- Send-path errors (`SendError`), restricted to the variants produced
by the code under verification. -/
inductive SendError where
  | illegalDeliveryState
  | nonTerminalDeliveryState
  | illegalSessionState
deriving DecidableEq, Repr

/-- Result of a resolved send future. -/
abbrev SendResult := Except SendError Outcome

/-- Embedding of `FromPreSettled for SendResult`. -/
def SendResult.from_settled : SendResult := Except.ok Outcome.accepted

/-- Embedding of `FromDeliveryState for SendResult` (`from_none`). -/
def SendResult.from_none : SendResult := Except.error SendError.illegalDeliveryState

/-- Embedding of `FromDeliveryState for SendResult`
(`from_delivery_state`). -/
def SendResult.from_delivery_state : DeliveryState → SendResult
  | DeliveryState.accepted => Except.ok Outcome.accepted
  | DeliveryState.rejected e => Except.ok (Outcome.rejected e)
  | DeliveryState.released => Except.ok Outcome.released
  | DeliveryState.modified m => Except.ok (Outcome.modified m)
  | DeliveryState.received _ => Except.error SendError.nonTerminalDeliveryState
  | DeliveryState.declared _ => Except.error SendError.illegalDeliveryState
  | DeliveryState.transactionalState _ => Except.error SendError.illegalDeliveryState

/-- Embedding of `FromOneshotRecvError for SendResult`: a dropped
one-shot sender maps to the IllegalSessionState error. -/
def SendResult.from_oneshot_recv_error : SendResult :=
  Except.error SendError.illegalSessionState

/-- Result of one `poll` of a future. -/
inductive Poll (α : Type) where
  | pending
  | ready (value : α)
deriving DecidableEq, Repr

/-- Embedding of `DeliveryFut::poll` at outcome type `SendResult`: a
pre-settled delivery resolves immediately via `from_settled`; an
unsettled one follows the one-shot: still pending, a received state, a
received `None`, or a dropped sender (`Err(RecvError)`, embedded as
`Except.error ()`). -/
def deliveryFutPoll : Settlement → Poll SendResult
  | Settlement.settled _ => Poll.ready SendResult.from_settled
  | Settlement.unsettled _ outcome =>
      match outcome with
      | none => Poll.pending
      | some (Except.ok (some state)) =>
          Poll.ready (SendResult.from_delivery_state state)
      | some (Except.ok none) => Poll.ready SendResult.from_none
      | some (Except.error _) => Poll.ready SendResult.from_oneshot_recv_error

/-- C7: the send future resolves to Ok(Accepted) immediately for a
pre-settled delivery; for an unsettled delivery the terminal states
Accepted, Rejected, Released and Modified all resolve to Ok with the
corresponding Outcome value, a Received state resolves to the
NonTerminalDeliveryState error, and a dropped one-shot sender resolves
to the IllegalSessionState error. -/
theorem send_future_resolution :
    (∀ tag : DeliveryTag,
      deliveryFutPoll (Settlement.settled tag) = Poll.ready (Except.ok Outcome.accepted))
    ∧ (∀ tag : DeliveryTag,
        deliveryFutPoll (Settlement.unsettled tag
            (some (Except.ok (some DeliveryState.accepted))))
          = Poll.ready (Except.ok Outcome.accepted))
    ∧ (∀ (tag : DeliveryTag) (e : Option Nat),
        deliveryFutPoll (Settlement.unsettled tag
            (some (Except.ok (some (DeliveryState.rejected e)))))
          = Poll.ready (Except.ok (Outcome.rejected e)))
    ∧ (∀ tag : DeliveryTag,
        deliveryFutPoll (Settlement.unsettled tag
            (some (Except.ok (some DeliveryState.released))))
          = Poll.ready (Except.ok Outcome.released))
    ∧ (∀ (tag : DeliveryTag) (m : Nat),
        deliveryFutPoll (Settlement.unsettled tag
            (some (Except.ok (some (DeliveryState.modified m)))))
          = Poll.ready (Except.ok (Outcome.modified m)))
    ∧ (∀ (tag : DeliveryTag) (r : Nat),
        deliveryFutPoll (Settlement.unsettled tag
            (some (Except.ok (some (DeliveryState.received r)))))
          = Poll.ready (Except.error SendError.nonTerminalDeliveryState))
    ∧ (∀ tag : DeliveryTag,
        deliveryFutPoll (Settlement.unsettled tag (some (Except.error ())))
          = Poll.ready (Except.error SendError.illegalSessionState)) :=
  ⟨fun _ => rfl, fun _ => rfl, fun _ _ => rfl, fun _ => rfl, fun _ _ => rfl,
   fun _ _ => rfl, fun _ => rfl⟩

/-- The part of an Attach performative inspected by `do_attach`: whether
a target is present, plus a numeric identity standing for the remaining
fields. -/
structure AttachPerf where
  target : Option Nat
  payload : Nat
deriving DecidableEq, Repr

/-- A Detach performative, by identity. -/
structure DetachPerf where
  payload : Nat
deriving DecidableEq, Repr

/-- Frames exchanged with the link engine (`LinkFrame`), with the
variants not inspected by the attach handshake collapsed into `other`. -/
inductive HandshakeFrame where
  | attach (a : AttachPerf)
  | detach (d : DetachPerf)
  | other (n : Nat)
deriving DecidableEq, Repr

/-- Outcome of the attach handshake. -/
inductive AttachOutcome where
  | attached (remote : AttachPerf)
  | detachedByPeer (remote : DetachPerf)
deriving DecidableEq, Repr

/-- Handshake errors (`IllegalState` with the two descriptions used by
the source). -/
inductive HandshakeError where
  | expectingRemoteAttach
  | expectingRemoteDetach
deriving DecidableEq, Repr

/-- Embedding of `expect_detach_then_detach`: await a frame from the
reader, require it to be a Detach, and only then send the local Detach.
Returns the frames written and, on success, the peer's detach and the
unconsumed reader. -/
def expect_detach_then_detach (localDetach : DetachPerf)
    (reader : List HandshakeFrame) :
    List HandshakeFrame ×
      Except HandshakeError (DetachPerf × List HandshakeFrame) :=
  match reader with
  | [] => ([], Except.error HandshakeError.expectingRemoteDetach)
  | HandshakeFrame.detach d :: rest =>
      ([HandshakeFrame.detach localDetach], Except.ok (d, rest))
  | _ :: _ => ([], Except.error HandshakeError.expectingRemoteDetach)

/-- Embedding of `do_attach`: write the local Attach, await the remote
Attach; when the remote Attach carries a target the link records it
(`on_incoming_attach`), and when it carries none the link runs
`expect_detach_then_detach`.  Returns the frames written and, on
success, the outcome and the unconsumed reader. -/
def do_attach (localAttach : AttachPerf) (localDetach : DetachPerf)
    (reader : List HandshakeFrame) :
    List HandshakeFrame ×
      Except HandshakeError (AttachOutcome × List HandshakeFrame) :=
  match reader with
  | [] => ([HandshakeFrame.attach localAttach],
           Except.error HandshakeError.expectingRemoteAttach)
  | HandshakeFrame.attach remote :: rest =>
      match remote.target with
      | some _ => ([HandshakeFrame.attach localAttach],
                   Except.ok (AttachOutcome.attached remote, rest))
      | none =>
          match expect_detach_then_detach localDetach rest with
          | (written, Except.ok (d, rest')) =>
              (HandshakeFrame.attach localAttach :: written,
               Except.ok (AttachOutcome.detachedByPeer d, rest'))
          | (written, Except.error e) =>
              (HandshakeFrame.attach localAttach :: written, Except.error e)
  | _ :: _ => ([HandshakeFrame.attach localAttach],
               Except.error HandshakeError.expectingRemoteAttach)

/-- C9 counterexample: when the peer's Attach carries no target and no
further frame arrives, the local side writes no Detach at all (it fails
waiting for the peer's Detach), refuting the claim that a Detach is sent
immediately without requiring any further frame from the peer. -/
theorem attach_no_target_counterexample :
    (do_attach ⟨some 1, 0⟩ ⟨0⟩ [HandshakeFrame.attach ⟨none, 0⟩]).1
      = [HandshakeFrame.attach ⟨some 1, 0⟩]
    ∧ (do_attach ⟨some 1, 0⟩ ⟨0⟩ [HandshakeFrame.attach ⟨none, 0⟩]).2
      = Except.error HandshakeError.expectingRemoteDetach :=
  ⟨rfl, rfl⟩

/-- C9 amended: when the peer's Attach carries no target, the local side
first awaits the peer's Detach frame and only then sends its own Detach
(without calling `on_incoming_attach`); with no further frame it fails
without writing a Detach. -/
theorem attach_no_target_awaits_peer_detach (la : AttachPerf) (ld : DetachPerf)
    (a : AttachPerf) (d : DetachPerf) (rest : List HandshakeFrame)
    (ha : a.target = none) :
    do_attach la ld (HandshakeFrame.attach a :: HandshakeFrame.detach d :: rest)
      = ([HandshakeFrame.attach la, HandshakeFrame.detach ld],
         Except.ok (AttachOutcome.detachedByPeer d, rest))
    ∧ do_attach la ld [HandshakeFrame.attach a]
      = ([HandshakeFrame.attach la],
         Except.error HandshakeError.expectingRemoteDetach) := by
  constructor
  · simp [do_attach, expect_detach_then_detach, ha]
  · simp [do_attach, expect_detach_then_detach, ha]

/-- Witness for the amended C9 at a concrete handshake. -/
theorem attach_no_target_awaits_peer_detach_witness :
    do_attach ⟨some 1, 0⟩ ⟨9⟩
        [HandshakeFrame.attach ⟨none, 5⟩, HandshakeFrame.detach ⟨4⟩]
      = ([HandshakeFrame.attach ⟨some 1, 0⟩, HandshakeFrame.detach ⟨9⟩],
         Except.ok (AttachOutcome.detachedByPeer ⟨4⟩, []))
    ∧ do_attach ⟨some 1, 0⟩ ⟨9⟩ [HandshakeFrame.attach ⟨none, 5⟩]
      = ([HandshakeFrame.attach ⟨some 1, 0⟩],
         Except.error HandshakeError.expectingRemoteDetach) :=
  attach_no_target_awaits_peer_detach ⟨some 1, 0⟩ ⟨9⟩ ⟨none, 5⟩ ⟨4⟩ [] rfl

/-- Sender settle mode (`SenderSettleMode`), default Mixed. -/
inductive SenderSettleMode where
  | unsettled
  | settled
  | mixed
deriving DecidableEq, Repr

/-- Receiver credit mode of the builder (`CreditMode`). -/
inductive CreditMode where
  | manual
  | auto (credit : Nat)
deriving DecidableEq, Repr

/-- The link builder (`link::builder::Builder`), with the phantom
type-state markers erased; `source` and `target` termini and the
capability lists are carried by identity. -/
structure LinkBuilder where
  name : String
  snd_settle_mode : SenderSettleMode
  rcv_settle_mode : ReceiverSettleMode
  source : Option Nat
  target : Option Nat
  initial_delivery_count : Nat
  max_message_size : Option Nat
  offered_capabilities : Option (List Nat)
  desired_capabilities : Option (List Nat)
  properties : Option Fields
  buffer_size : Nat
  credit_mode : CreditMode
deriving DecidableEq, Repr

/-- Embedding of `Builder::name`: the source rebuilds the struct carrying
every field over except `properties`, which it sets to
`Default::default()` (i.e. `None`). -/
def LinkBuilder.setName (b : LinkBuilder) (name : String) : LinkBuilder :=
  { name := name
    snd_settle_mode := b.snd_settle_mode
    rcv_settle_mode := b.rcv_settle_mode
    source := b.source
    target := b.target
    initial_delivery_count := b.initial_delivery_count
    max_message_size := b.max_message_size
    offered_capabilities := b.offered_capabilities
    desired_capabilities := b.desired_capabilities
    buffer_size := b.buffer_size
    credit_mode := b.credit_mode
    properties := none }

/-- Embedding of `Builder::sender`, field-for-field as the source. -/
def LinkBuilder.sender (b : LinkBuilder) : LinkBuilder :=
  { name := b.name
    snd_settle_mode := b.snd_settle_mode
    rcv_settle_mode := b.rcv_settle_mode
    source := b.source
    target := b.target
    initial_delivery_count := b.initial_delivery_count
    max_message_size := b.max_message_size
    offered_capabilities := b.offered_capabilities
    desired_capabilities := b.desired_capabilities
    buffer_size := b.buffer_size
    credit_mode := b.credit_mode
    properties := none }

/-- Embedding of `Builder::receiver`, field-for-field as the source. -/
def LinkBuilder.receiver (b : LinkBuilder) : LinkBuilder :=
  { name := b.name
    snd_settle_mode := b.snd_settle_mode
    rcv_settle_mode := b.rcv_settle_mode
    source := b.source
    target := b.target
    initial_delivery_count := b.initial_delivery_count
    max_message_size := b.max_message_size
    offered_capabilities := b.offered_capabilities
    desired_capabilities := b.desired_capabilities
    buffer_size := b.buffer_size
    credit_mode := b.credit_mode
    properties := none }

/-- Embedding of `Builder::target`, field-for-field as the source. -/
def LinkBuilder.setTarget (b : LinkBuilder) (target : Nat) : LinkBuilder :=
  { name := b.name
    snd_settle_mode := b.snd_settle_mode
    rcv_settle_mode := b.rcv_settle_mode
    source := b.source
    target := some target
    initial_delivery_count := b.initial_delivery_count
    max_message_size := b.max_message_size
    offered_capabilities := b.offered_capabilities
    desired_capabilities := b.desired_capabilities
    buffer_size := b.buffer_size
    credit_mode := b.credit_mode
    properties := none }

/-- Embedding of `Builder::properties`. -/
def LinkBuilder.setProperties (b : LinkBuilder) (properties : Fields) : LinkBuilder :=
  { b with properties := some properties }

/-- A concrete builder with every configurable field set, used to
exhibit which fields the transition methods carry over. -/
def configuredLinkBuilder : LinkBuilder :=
  { name := "n0"
    snd_settle_mode := SenderSettleMode.settled
    rcv_settle_mode := ReceiverSettleMode.second
    source := some 3
    target := some 4
    initial_delivery_count := 6
    max_message_size := some 512
    offered_capabilities := some [1]
    desired_capabilities := some [2]
    properties := some 42
    buffer_size := 128
    credit_mode := CreditMode.auto 1 }

/-- C10: evidence of the property-dropping bug in the builder's
type-state transitions.  Starting from a builder whose `properties` were
set, each of `name`, `sender`, `receiver` and `target` resets
`properties` to `None` while carrying every other configured field over
unchanged, refuting the claim that all previously-configured fields (link
properties in particular) are preserved. -/
theorem builder_transitions_drop_properties :
    ((configuredLinkBuilder.setName "n1").properties = none
      ∧ configuredLinkBuilder.sender.properties = none
      ∧ configuredLinkBuilder.receiver.properties = none
      ∧ (configuredLinkBuilder.setTarget 9).properties = none)
    ∧ (configuredLinkBuilder.setName "n1"
        = { configuredLinkBuilder with name := "n1", properties := none }
      ∧ configuredLinkBuilder.sender
        = { configuredLinkBuilder with properties := none }
      ∧ configuredLinkBuilder.receiver
        = { configuredLinkBuilder with properties := none }
      ∧ configuredLinkBuilder.setTarget 9
        = { configuredLinkBuilder with target := some 9, properties := none })
    ∧ configuredLinkBuilder.properties = some 42 :=
  ⟨⟨rfl, rfl, rfl, rfl⟩, ⟨rfl, rfl, rfl, rfl⟩, rfl⟩

end Fe2o3
